import Mathlib

/-!
Verification development for the EduTrack student-management application.

The storage layer is a relational schema (tables profiles, user_roles,
students, subjects, attendance, grades) with check constraints, unique
constraints, foreign keys with cascade-on-delete, row-level-security
policies backed by the `has_role` lookup function, and triggers
(`handle_new_user` provisioning a profile on account creation).
The front-end pages (Students, Subjects, Attendance, Grades) perform
direct reads and writes against these tables.

We embed the schema as lists of rows, the DDL constraints as guards on
insert and update operations that either apply atomically or leave the
state unchanged, the policies as boolean predicates over the caller and
the role table, and the page handlers as the record sets and effect
traces they produce.
-/

/-- The closed role enumeration `app_role` from the schema. -/
inductive AppRole
  | admin
  | teacher
  | student
deriving DecidableEq

/-- A row of `public.profiles`. -/
structure Profile where
  id : String
  username : String
  first_name : Option String
  last_name : Option String
  email : Option String
deriving DecidableEq

/-- A row of `public.user_roles` (the generated surrogate key is elided;
uniqueness of `(user_id, role)` is what the policies depend on). -/
structure UserRole where
  user_id : String
  role : AppRole
deriving DecidableEq

/-- A row of `public.students`. -/
structure Student where
  id : String
  first_name : String
  last_name : String
  id_number : String
  email : String
  course : String
deriving DecidableEq

/-- A row of `public.subjects`. -/
structure Subject where
  id : String
  name : String
  instructor : String
deriving DecidableEq

/-- A row of `public.attendance`. -/
structure AttendanceRow where
  id : String
  date : String
  present : Bool
  student_id : String
  subject_id : String
deriving DecidableEq

/-- A row of `public.grades`.  Scores are `DECIMAL(5,2)` and nullable, so we
model them as `Option ℚ`; `average` is the stored generated column. -/
structure GradeRow where
  id : String
  partial_score : Option ℚ
  exam_score : Option ℚ
  average : Option ℚ
  student_id : String
  subject_id : String
deriving DecidableEq

/-- A row of `auth.users` as seen by the `handle_new_user` trigger:
the id, the email, and the `raw_user_meta_data` fields the trigger reads. -/
structure AuthUser where
  id : String
  email : String
  meta_username : Option String
  meta_first_name : Option String
  meta_last_name : Option String
deriving DecidableEq

/-- The database state: one list of rows per table. -/
structure DB where
  auth_users : List AuthUser
  profiles : List Profile
  user_roles : List UserRole
  students : List Student
  subjects : List Subject
  attendance : List AttendanceRow
  grades : List GradeRow
deriving DecidableEq

/-- The SQL generated column `average DECIMAL(5,2) GENERATED ALWAYS AS
((partial_score + exam_score) / 2) STORED`: SQL arithmetic on a NULL
operand yields NULL. -/
def gradeAverage (p e : Option ℚ) : Option ℚ :=
  match p, e with
  | some a, some b => some ((a + b) / 2)
  | _, _ => none

/-- The SQL check `CHECK (s >= 0 AND s <= 100)` on a nullable score:
a NULL operand makes the check pass (SQL three-valued logic rejects only
when the condition is false). -/
def scoreCheck (s : Option ℚ) : Bool :=
  match s with
  | none => true
  | some v => decide (0 ≤ v ∧ v ≤ 100)

/-- The writable columns of an insert into `grades`: `average` is
`GENERATED ALWAYS` and cannot be supplied by the writer, so it has no
field here. -/
structure GradeInsert where
  id : String
  partial_score : Option ℚ
  exam_score : Option ℚ
  student_id : String
  subject_id : String
deriving DecidableEq

/-- The stored row an accepted grade insert produces: the writable
columns plus the generated `average`. -/
def GradeInsert.row (g : GradeInsert) : GradeRow :=
  { id := g.id, partial_score := g.partial_score,
    exam_score := g.exam_score,
    average := gradeAverage g.partial_score g.exam_score,
    student_id := g.student_id, subject_id := g.subject_id }

/-- The conjunction of constraints a grade insert must satisfy: both
score checks, the foreign keys to `students` and `subjects`, primary-key
freshness and the `UNIQUE(student_id, subject_id)` constraint. -/
def insertGradeOk (db : DB) (g : GradeInsert) : Bool :=
  scoreCheck g.partial_score
    && scoreCheck g.exam_score
    && db.students.any (fun s => decide (s.id = g.student_id))
    && db.subjects.any (fun s => decide (s.id = g.subject_id))
    && !(db.grades.any (fun r => decide (r.id = g.id)))
    && !(db.grades.any (fun r =>
          decide (r.student_id = g.student_id ∧ r.subject_id = g.subject_id)))

/-- Insert into `public.grades`: on success appends the row with the
generated `average`, on rejection returns the state unchanged with a
`false` flag. -/
def insertGrade (db : DB) (g : GradeInsert) : DB × Bool :=
  if insertGradeOk db g
  then ({ db with grades := db.grades ++ [g.row] }, true)
  else (db, false)

/-- Update of the score columns of the grade row with primary key `gid`:
enforces the score checks on the new values and recomputes the stored
generated `average`; on rejection the state is unchanged. -/
def updateGradeScores (db : DB) (gid : String) (p e : Option ℚ) : DB × Bool :=
  if scoreCheck p && scoreCheck e then
    ({ db with grades := db.grades.map (fun r =>
        if r.id = gid then
          { r with partial_score := p, exam_score := e,
                   average := gradeAverage p e }
        else r) }, true)
  else (db, false)

/-- The conjunction of constraints an attendance insert must satisfy:
the foreign keys, primary-key freshness and
`UNIQUE(date, student_id, subject_id)`. -/
def insertAttendanceOk (db : DB) (a : AttendanceRow) : Bool :=
  db.students.any (fun s => decide (s.id = a.student_id))
    && db.subjects.any (fun s => decide (s.id = a.subject_id))
    && !(db.attendance.any (fun r => decide (r.id = a.id)))
    && !(db.attendance.any (fun r =>
          decide (r.date = a.date ∧ r.student_id = a.student_id ∧
                  r.subject_id = a.subject_id)))

/-- Insert into `public.attendance`: on rejection the state is
unchanged. -/
def insertAttendance (db : DB) (a : AttendanceRow) : DB × Bool :=
  if insertAttendanceOk db a
  then ({ db with attendance := db.attendance ++ [a] }, true)
  else (db, false)

/-- Delete from `public.students`: the foreign keys of `attendance` and
`grades` declare `ON DELETE CASCADE`, so dependent rows of those two
tables are removed with the student. -/
def deleteStudent (db : DB) (sid : String) : DB :=
  { db with
      students := db.students.filter (fun s => decide (s.id ≠ sid)),
      attendance := db.attendance.filter (fun a => decide (a.student_id ≠ sid)),
      grades := db.grades.filter (fun g => decide (g.student_id ≠ sid)) }

/-- Delete from `public.subjects`: cascades to `attendance` and `grades`
through their `ON DELETE CASCADE` foreign keys. -/
def deleteSubject (db : DB) (subj : String) : DB :=
  { db with
      subjects := db.subjects.filter (fun s => decide (s.id ≠ subj)),
      attendance := db.attendance.filter (fun a => decide (a.subject_id ≠ subj)),
      grades := db.grades.filter (fun g => decide (g.subject_id ≠ subj)) }

/-- The grades invariant maintained by the store: every row's stored
`average` is the generated value of its two score columns. -/
def GradesWF (db : DB) : Prop :=
  ∀ r ∈ db.grades, r.average = gradeAverage r.partial_score r.exam_score

/-- The `public.has_role` security-definer function: `SELECT EXISTS
(SELECT 1 FROM public.user_roles WHERE user_id = _user_id AND role = _role)`. -/
def has_role (db : DB) (uid : String) (r : AppRole) : Bool :=
  db.user_roles.any (fun ur => decide (ur.user_id = uid ∧ ur.role = r))

/-- The four CRUD tables guarded by the identical pair of policies. -/
inductive Table
  | students
  | subjects
  | attendance
  | grades
deriving DecidableEq

/-- The `USING (true)` clause of the per-table `FOR SELECT TO
authenticated` policies on students, subjects, attendance and grades. -/
def readPolicy (_db : DB) (_uid : String) (_t : Table) : Bool :=
  true

/-- The `USING` clause of the per-table `FOR ALL TO authenticated` manage
policies on students, subjects, attendance and grades:
`has_role(auth.uid(), 'admin') OR has_role(auth.uid(), 'teacher')`. -/
def managePolicy (db : DB) (uid : String) (_t : Table) : Bool :=
  has_role db uid AppRole.admin || has_role db uid AppRole.teacher

/-- The write statements the four pages issue against the CRUD tables. -/
inductive WriteOp
  | insStudent (s : Student)
  | updStudent (sid : String) (s : Student)
  | delStudent (sid : String)
  | insSubject (s : Subject)
  | updSubject (sid : String) (s : Subject)
  | delSubject (sid : String)
  | insAttendance (a : AttendanceRow)
  | insGrade (g : GradeInsert)
  | updGrade (gid : String) (p e : Option ℚ)

/-- The table a write statement targets. -/
def WriteOp.table : WriteOp → Table
  | .insStudent _ => .students
  | .updStudent _ _ => .students
  | .delStudent _ => .students
  | .insSubject _ => .subjects
  | .updSubject _ _ => .subjects
  | .delSubject _ => .subjects
  | .insAttendance _ => .attendance
  | .insGrade _ => .grades
  | .updGrade _ _ _ => .grades

/-- Insert into `public.students` (primary-key and `id_number` uniqueness). -/
def insertStudent (db : DB) (s : Student) : DB × Bool :=
  if !(db.students.any (fun r => decide (r.id = s.id)))
      && !(db.students.any (fun r => decide (r.id_number = s.id_number)))
  then ({ db with students := db.students ++ [s] }, true)
  else (db, false)

/-- Insert into `public.subjects` (primary-key uniqueness). -/
def insertSubject (db : DB) (s : Subject) : DB × Bool :=
  if !(db.subjects.any (fun r => decide (r.id = s.id)))
  then ({ db with subjects := db.subjects ++ [s] }, true)
  else (db, false)

/-- Update of the student row with primary key `sid`. -/
def updateStudent (db : DB) (sid : String) (s : Student) : DB × Bool :=
  ({ db with students := db.students.map (fun r =>
      if r.id = sid then { s with id := r.id } else r) }, true)

/-- Update of the subject row with primary key `sid`. -/
def updateSubject (db : DB) (sid : String) (s : Subject) : DB × Bool :=
  ({ db with subjects := db.subjects.map (fun r =>
      if r.id = sid then { s with id := r.id } else r) }, true)

/-- Apply a write statement to the store (constraints included). -/
def applyWrite (db : DB) : WriteOp → DB × Bool
  | .insStudent s => insertStudent db s
  | .updStudent sid s => updateStudent db sid s
  | .delStudent sid => (deleteStudent db sid, true)
  | .insSubject s => insertSubject db s
  | .updSubject sid s => updateSubject db sid s
  | .delSubject sid => (deleteSubject db sid, true)
  | .insAttendance a => insertAttendance db a
  | .insGrade g => insertGrade db g
  | .updGrade gid p e => updateGradeScores db gid p e

/-- A write statement as the policy layer evaluates it for an
authenticated caller `uid`: the manage policy of the target table gates
the statement; a denied statement leaves the state unchanged. -/
def guardedWrite (db : DB) (uid : String) (w : WriteOp) : DB × Bool :=
  if managePolicy db uid w.table then applyWrite db w else (db, false)

/-- The `USING (true)` clause of the policy
`Users can view all profiles` (`FOR SELECT TO authenticated`). -/
def profilesReadPolicy (_uid : String) (_row : Profile) : Bool :=
  true

/-- The `USING (auth.uid() = id)` clause of the policy
`Users can update own profile` (`FOR UPDATE TO authenticated`). -/
def profilesUpdatePolicy (uid : String) (row : Profile) : Bool :=
  decide (uid = row.id)

/-- An `UPDATE public.profiles ... WHERE id = target` issued by caller
`uid`: row-level security updates only the rows that both match the
statement and pass the update policy's `USING` clause. -/
def guardedUpdateProfile (db : DB) (uid : String) (target : String)
    (f : Profile → Profile) : DB :=
  { db with profiles := db.profiles.map (fun p =>
      if p.id = target && profilesUpdatePolicy uid p then
        { f p with id := p.id }
      else p) }

/-- Characters before the first occurrence of `c` (all of them when `c`
does not occur). -/
def takeUntilChar (c : Char) : List Char → List Char
  | [] => []
  | x :: xs => if x = c then [] else x :: takeUntilChar c xs

/-- The SQL `SPLIT_PART(s, '@', 1)` for the single-character separator the
trigger uses: the substring before the first occurrence of the separator
(the whole string when it does not occur). -/
def splitPartOne (s : String) (c : Char) : String :=
  String.mk (takeUntilChar c s.data)

/-- The `handle_new_user` trigger function body: the profile row it
inserts for a freshly created account, with
`username = COALESCE(raw_user_meta_data->>'username', SPLIT_PART(email, '@', 1))`. -/
def handle_new_user (u : AuthUser) : Profile :=
  { id := u.id,
    username := u.meta_username.getD (splitPartOne u.email '@'),
    first_name := u.meta_first_name,
    last_name := u.meta_last_name,
    email := some u.email }

/-- The constraints the trigger's profile insert is subject to:
primary-key freshness of the new account id on both tables and
uniqueness of the derived username. -/
def createAccountOk (db : DB) (u : AuthUser) : Bool :=
  !(db.auth_users.any (fun r => decide (r.id = u.id)))
    && !(db.profiles.any (fun r => decide (r.id = (handle_new_user u).id)))
    && !(db.profiles.any (fun r =>
          decide (r.username = (handle_new_user u).username)))

/-- Account creation: the insert into `auth.users` together with the
`on_auth_user_created` AFTER INSERT trigger, which runs `handle_new_user`
once for the new row.  A constraint violation in the trigger's insert
aborts the whole statement, so on rejection nothing is inserted. -/
def createAccount (db : DB) (u : AuthUser) : DB × Bool :=
  if createAccountOk db u
  then ({ db with auth_users := db.auth_users ++ [u],
                  profiles := db.profiles ++ [handle_new_user u] }, true)
  else (db, false)

/-- An observable storage effect of a page handler: a write statement
against a table, a fresh full fetch of a table, or a toast notification. -/
inductive Effect
  | mutate (t : Table)
  | fetch (t : Table)
  | toast
deriving DecidableEq

/-- Success path of `handleSubmit` in Students.tsx, create branch:
`insert`, success toast, then `fetchStudents()`. -/
def studentsCreateTrace : List Effect :=
  [Effect.mutate Table.students, Effect.toast, Effect.fetch Table.students]

/-- Success path of `handleSubmit` in Students.tsx, edit branch:
`update`, success toast, then `fetchStudents()`. -/
def studentsUpdateTrace : List Effect :=
  [Effect.mutate Table.students, Effect.toast, Effect.fetch Table.students]

/-- Success path of `handleDelete` in Students.tsx:
`delete`, success toast, then `fetchStudents()`. -/
def studentsDeleteTrace : List Effect :=
  [Effect.mutate Table.students, Effect.toast, Effect.fetch Table.students]

/-- Success path of `handleSubmit` in Subjects.tsx, create branch. -/
def subjectsCreateTrace : List Effect :=
  [Effect.mutate Table.subjects, Effect.toast, Effect.fetch Table.subjects]

/-- Success path of `handleSubmit` in Subjects.tsx, edit branch. -/
def subjectsUpdateTrace : List Effect :=
  [Effect.mutate Table.subjects, Effect.toast, Effect.fetch Table.subjects]

/-- Success path of `handleDelete` in Subjects.tsx. -/
def subjectsDeleteTrace : List Effect :=
  [Effect.mutate Table.subjects, Effect.toast, Effect.fetch Table.subjects]

/-- Success path of `handleSave` on the Grades page:
`upsert` into grades, success toast, then `fetchGrades()`. -/
def gradesSaveTrace : List Effect :=
  [Effect.mutate Table.grades, Effect.toast, Effect.fetch Table.grades]

/-- Success path of `handleSave` on the Attendance page:
`upsert` into attendance, then only the success toast — the handler
issues no fetch of the attendance table afterwards. -/
def attendanceSaveTrace : List Effect :=
  [Effect.mutate Table.attendance, Effect.toast]

/-- Every successful mutation path of the four pages, paired with the
page's own table. -/
def pageMutationTraces : List (Table × List Effect) :=
  [(Table.students, studentsCreateTrace),
   (Table.students, studentsUpdateTrace),
   (Table.students, studentsDeleteTrace),
   (Table.subjects, subjectsCreateTrace),
   (Table.subjects, subjectsUpdateTrace),
   (Table.subjects, subjectsDeleteTrace),
   (Table.grades, gradesSaveTrace),
   (Table.attendance, attendanceSaveTrace)]

/-- Every `mutate t` in the trace is followed, later in the trace, by a
`fetch t`. -/
def fetchFollowsMutations (t : Table) : List Effect → Bool
  | [] => true
  | e :: rest =>
      (if e = Effect.mutate t then rest.contains (Effect.fetch t) else true)
        && fetchFollowsMutations t rest

/-- One row of the record set the Attendance page upserts (the primary
key is left to the store's default). -/
structure AttendanceUpsertRecord where
  date : String
  student_id : String
  subject_id : String
  present : Bool
deriving DecidableEq

/-- The record set built by `handleSave` on the Attendance page: one
record per student currently listed, with
`present: attendance[student.id] || false` — the page's checkbox map
`attendance` is modelled as an association list `marks`. -/
def attendanceSaveRecords (students : List Student) (dateStr subjId : String)
    (marks : List (String × Bool)) : List AttendanceUpsertRecord :=
  students.map (fun s =>
    { date := dateStr, student_id := s.id, subject_id := subjId,
      present := (marks.lookup s.id).getD false })

/-- Fixture: a student row. -/
def stEx : Student :=
  { id := "s1", first_name := "Ana", last_name := "Best",
    id_number := "N100", email := "ana@school.edu", course := "CS" }

/-- Fixture: a second student row. -/
def stEx2 : Student :=
  { id := "s2", first_name := "Bo", last_name := "Cruz",
    id_number := "N200", email := "bo@school.edu", course := "CS" }

/-- Fixture: a subject row. -/
def sjEx : Subject := { id := "j1", name := "Math", instructor := "Prof T" }

/-- Fixture: an attendance row for the first student on 2024-01-01. -/
def atEx : AttendanceRow :=
  { id := "a1", date := "2024-01-01", present := true,
    student_id := "s1", subject_id := "j1" }

/-- Fixture: a profile row owned by account u1. -/
def pEx : Profile :=
  { id := "u1", username := "ana", first_name := none,
    last_name := none, email := none }

/-- Fixture: a store with one teacher role for u1, two students, one
subject, one attendance row and no grades. -/
def dbEx : DB :=
  { auth_users := [], profiles := [pEx],
    user_roles := [{ user_id := "u1", role := AppRole.teacher }],
    students := [stEx, stEx2], subjects := [sjEx],
    attendance := [atEx], grades := [] }

/-- Fixture: a grade insert with partial 80 and exam 90. -/
def gEx : GradeInsert :=
  { id := "g1", partial_score := some 80, exam_score := some 90,
    student_id := "s1", subject_id := "j1" }

/-- Fixture: a grade insert with an out-of-range partial score. -/
def gBad : GradeInsert :=
  { id := "g2", partial_score := some 150, exam_score := some 50,
    student_id := "s1", subject_id := "j1" }

/-- Fixture: a grade insert with an absent partial score. -/
def gNull : GradeInsert :=
  { id := "g3", partial_score := none, exam_score := some 50,
    student_id := "s2", subject_id := "j1" }

/-- Fixture: the store `dbEx` holding the grade row produced by `gEx`. -/
def dbG : DB := { dbEx with grades := [gEx.row] }

/-- Fixture: an attendance row for the same student and subject as
`atEx` on the next day. -/
def atEx2 : AttendanceRow :=
  { id := "a2", date := "2024-01-02", present := false,
    student_id := "s1", subject_id := "j1" }

/-- Fixture: an attendance insert with the same (date, student, subject)
triple as `atEx` under a fresh primary key. -/
def atDup : AttendanceRow :=
  { id := "a9", date := "2024-01-01", present := false,
    student_id := "s1", subject_id := "j1" }

/-- Fixture: a fresh account with no username in its metadata. -/
def uEx : AuthUser :=
  { id := "u9", email := "bob@school.edu", meta_username := none,
    meta_first_name := none, meta_last_name := none }

theorem insertGrade_snd (db : DB) (g : GradeInsert) :
    (insertGrade db g).2 = insertGradeOk db g := by
  unfold insertGrade
  split <;> simp_all

theorem insertGrade_of_ok {db : DB} {g : GradeInsert}
    (h : insertGradeOk db g = true) :
    insertGrade db g = ({ db with grades := db.grades ++ [g.row] }, true) := by
  unfold insertGrade
  simp [h]

theorem insertGrade_of_notOk {db : DB} {g : GradeInsert}
    (h : insertGradeOk db g = false) : insertGrade db g = (db, false) := by
  unfold insertGrade
  simp [h]

theorem insertAttendance_of_ok {db : DB} {a : AttendanceRow}
    (h : insertAttendanceOk db a = true) :
    insertAttendance db a = ({ db with attendance := db.attendance ++ [a] }, true) := by
  unfold insertAttendance
  simp [h]

theorem insertAttendance_of_notOk {db : DB} {a : AttendanceRow}
    (h : insertAttendanceOk db a = false) :
    insertAttendance db a = (db, false) := by
  unfold insertAttendance
  simp [h]

/-- Claim C1: every grade row's stored `average` column equals the mean
`(partial_score + exam_score) / 2` of its two score columns; the store
recomputes it on insert and on update of either score; and an accepted
insert with partial 80 and exam 90 stores the average 85.00. -/
theorem grades_stored_average_is_mean (db : DB) (g : GradeInsert)
    (gid : String) (p e : Option ℚ) (hwf : GradesWF db) :
    GradesWF (insertGrade db g).1 ∧
    GradesWF (updateGradeScores db gid p e).1 ∧
    (g.partial_score = some 80 → g.exam_score = some 90 →
      (insertGrade db g).2 = true →
      ∃ r ∈ (insertGrade db g).1.grades,
        r.student_id = g.student_id ∧ r.subject_id = g.subject_id ∧
        r.average = some 85) := by
  refine ⟨?_, ?_, ?_⟩
  · intro r hr
    unfold insertGrade at hr
    split at hr
    · simp only [List.mem_append, List.mem_singleton] at hr
      rcases hr with hr | hr
      · exact hwf r hr
      · subst hr
        rfl
    · exact hwf r hr
  · intro r hr
    unfold updateGradeScores at hr
    split at hr
    · simp only [List.mem_map] at hr
      obtain ⟨r0, hr0, hrr⟩ := hr
      by_cases hid : r0.id = gid
      · subst hrr
        simp [hid]
      · subst hrr
        simp only [hid, if_false]
        exact hwf r0 hr0
    · exact hwf r hr
  · intro hp he hs
    rw [insertGrade_snd] at hs
    rw [insertGrade_of_ok hs]
    refine ⟨g.row, by simp, rfl, rfl, ?_⟩
    show gradeAverage g.partial_score g.exam_score = some 85
    rw [hp, he]
    norm_num [gradeAverage]

/-- Witness for C1: the fixture store satisfies the invariant, and the
concrete insert of partial 80 / exam 90 stores average 85. -/
theorem grades_stored_average_is_mean_witness :
    GradesWF dbEx ∧
    ∃ r ∈ (insertGrade dbEx gEx).1.grades,
      r.student_id = gEx.student_id ∧ r.subject_id = gEx.subject_id ∧
      r.average = some 85 := by
  have h : GradesWF dbEx := by
    intro r hr
    simp [dbEx] at hr
  exact ⟨h, (grades_stored_average_is_mean dbEx gEx "g0" (some 10) (some 20)
    h).2.2 rfl rfl (by decide)⟩

/-- Claim C2: a grade insert for an already-graded (student, subject)
pair is rejected, an attendance insert for an existing
(date, student, subject) triple is rejected — in both cases the stored
state is unchanged — and an attendance insert with a different date for
the same student and subject is accepted. -/
theorem duplicate_inserts_rejected (db : DB) (g : GradeInsert)
    (a b : AttendanceRow)
    (hg : ∃ r ∈ db.grades,
      r.student_id = g.student_id ∧ r.subject_id = g.subject_id)
    (ha : ∃ r ∈ db.attendance, r.date = a.date ∧
      r.student_id = a.student_id ∧ r.subject_id = a.subject_id)
    (_hb1 : ∃ r ∈ db.attendance, r.student_id = b.student_id ∧
      r.subject_id = b.subject_id ∧ r.date ≠ b.date)
    (hb2 : ∀ r ∈ db.attendance, ¬(r.date = b.date ∧
      r.student_id = b.student_id ∧ r.subject_id = b.subject_id))
    (hb3 : ∀ r ∈ db.attendance, r.id ≠ b.id)
    (hb4 : ∃ s ∈ db.students, s.id = b.student_id)
    (hb5 : ∃ s ∈ db.subjects, s.id = b.subject_id) :
    insertGrade db g = (db, false) ∧
    insertAttendance db a = (db, false) ∧
    insertAttendance db b =
      ({ db with attendance := db.attendance ++ [b] }, true) := by
  refine ⟨?_, ?_, ?_⟩
  · apply insertGrade_of_notOk
    obtain ⟨r, hr, h1, h2⟩ := hg
    have hany : db.grades.any (fun r =>
        decide (r.student_id = g.student_id ∧ r.subject_id = g.subject_id))
          = true :=
      List.any_eq_true.2 ⟨r, hr, by simp [h1, h2]⟩
    simp only [insertGradeOk, hany]
    simp
  · apply insertAttendance_of_notOk
    obtain ⟨r, hr, h1, h2, h3⟩ := ha
    have hany : db.attendance.any (fun r =>
        decide (r.date = a.date ∧ r.student_id = a.student_id ∧
                r.subject_id = a.subject_id)) = true :=
      List.any_eq_true.2 ⟨r, hr, by simp [h1, h2, h3]⟩
    simp only [insertAttendanceOk, hany]
    simp
  · apply insertAttendance_of_ok
    simp only [insertAttendanceOk, Bool.and_eq_true, Bool.not_eq_true',
      List.any_eq_false, List.any_eq_true, decide_eq_true_eq,
      decide_eq_false_iff_not]
    exact ⟨⟨⟨hb4, hb5⟩, hb3⟩, hb2⟩

/-- Witness for C2 at the fixture store: the duplicate grade and the
duplicate attendance triple are rejected without a state change, and the
next-day attendance insert for the same student and subject succeeds. -/
theorem duplicate_inserts_rejected_witness :
    insertGrade dbG gEx = (dbG, false) ∧
    insertAttendance dbG atDup = (dbG, false) ∧
    insertAttendance dbG atEx2 =
      ({ dbG with attendance := dbG.attendance ++ [atEx2] }, true) :=
  duplicate_inserts_rejected dbG gEx atDup atEx2 (by decide) (by decide)
    (by decide) (by decide) (by decide) (by decide) (by decide)

/-- Claim C3: on the students, subjects, attendance and grades tables,
any authenticated caller may read; a write is permitted exactly when the
caller holds the admin or the teacher role, holding a role meaning a
user_roles row with that (user_id, role) exists as `has_role` computes
it; and a write denied by policy leaves the state unchanged. -/
theorem crud_policy_spec (db : DB) (uid : String) (t : Table) (w : WriteOp) :
    readPolicy db uid t = true ∧
    (managePolicy db uid t = true ↔
      (∃ ur ∈ db.user_roles, ur.user_id = uid ∧ ur.role = AppRole.admin) ∨
      (∃ ur ∈ db.user_roles, ur.user_id = uid ∧ ur.role = AppRole.teacher)) ∧
    (managePolicy db uid w.table = false →
      guardedWrite db uid w = (db, false)) := by
  refine ⟨rfl, ?_, ?_⟩
  · simp [managePolicy, has_role, List.any_eq_true]
  · intro h
    unfold guardedWrite
    simp [h]

/-- Witness for C3: at the fixture store, a caller holding no role is
denied a student insert and the state is unchanged, while the teacher u1
passes the manage policy. -/
theorem crud_policy_spec_witness :
    managePolicy dbEx "u2" Table.students = false ∧
    managePolicy dbEx "u1" Table.students = true ∧
    guardedWrite dbEx "u2" (WriteOp.insStudent stEx) = (dbEx, false) :=
  ⟨by decide, by decide,
    (crud_policy_spec dbEx "u2" Table.students
      (WriteOp.insStudent stEx)).2.2 (by decide)⟩

/-- Claim C4: a grades write is rejected unless every supplied score lies
in [0,100] — an insert or an update with a present out-of-range score
fails and leaves the state unchanged — and the writer can never supply
the average column directly: every grade row a write adds or changes
carries the derived average of its own score columns. -/
theorem grades_range_check_spec (db : DB) (g : GradeInsert) (gid : String)
    (p e : Option ℚ)
    (hg : (∃ v, g.partial_score = some v ∧ ¬(0 ≤ v ∧ v ≤ 100)) ∨
          (∃ v, g.exam_score = some v ∧ ¬(0 ≤ v ∧ v ≤ 100)))
    (hu : (∃ v, p = some v ∧ ¬(0 ≤ v ∧ v ≤ 100)) ∨
          (∃ v, e = some v ∧ ¬(0 ≤ v ∧ v ≤ 100))) :
    insertGrade db g = (db, false) ∧
    updateGradeScores db gid p e = (db, false) ∧
    (∀ (db1 : DB) (g1 : GradeInsert), ∀ r ∈ (insertGrade db1 g1).1.grades,
      r ∈ db1.grades ∨
        r.average = gradeAverage r.partial_score r.exam_score) ∧
    (∀ (db1 : DB) (gid1 : String) (p1 e1 : Option ℚ),
      ∀ r ∈ (updateGradeScores db1 gid1 p1 e1).1.grades,
      r ∈ db1.grades ∨
        r.average = gradeAverage r.partial_score r.exam_score) := by
  refine ⟨?_, ?_, ?_, ?_⟩
  · apply insertGrade_of_notOk
    rcases hg with ⟨v, hv, hnv⟩ | ⟨v, hv, hnv⟩
    · have hc : scoreCheck g.partial_score = false := by
        simp [scoreCheck, hv, hnv]
      simp [insertGradeOk, hc]
    · have hc : scoreCheck g.exam_score = false := by
        simp [scoreCheck, hv, hnv]
      simp [insertGradeOk, hc]
  · unfold updateGradeScores
    rcases hu with ⟨v, hv, hnv⟩ | ⟨v, hv, hnv⟩
    · have hc : scoreCheck p = false := by
        simp [scoreCheck, hv, hnv]
      simp [hc]
    · have hc : scoreCheck e = false := by
        simp [scoreCheck, hv, hnv]
      simp [hc]
  · intro db1 g1 r hr
    unfold insertGrade at hr
    split at hr
    · simp only [List.mem_append, List.mem_singleton] at hr
      rcases hr with hr | hr
      · exact Or.inl hr
      · subst hr
        exact Or.inr rfl
    · exact Or.inl hr
  · intro db1 gid1 p1 e1 r hr
    unfold updateGradeScores at hr
    split at hr
    · simp only [List.mem_map] at hr
      obtain ⟨r0, hr0, hrr⟩ := hr
      by_cases hid : r0.id = gid1
      · subst hrr
        exact Or.inr (by simp [hid])
      · subst hrr
        simp only [hid, if_false]
        exact Or.inl hr0
    · exact Or.inl hr

/-- Witness for C4: the concrete insert with partial score 150 and the
concrete update setting a score to 150 are both rejected without a state
change. -/
theorem grades_range_check_witness :
    insertGrade dbEx gBad = (dbEx, false) ∧
    updateGradeScores dbEx "g1" (some 150) (some 50) = (dbEx, false) := by
  have h := grades_range_check_spec dbEx gBad "g1" (some 150) (some 50)
    (Or.inl ⟨150, rfl, by decide⟩) (Or.inl ⟨150, rfl, by decide⟩)
  exact ⟨h.1, h.2.1⟩

/-- Claim C5: a successful account creation appends exactly one profile
row, whose id is the account id and whose username is the metadata
username when present and otherwise the part of the account's email
before the at sign. -/
theorem account_creation_provisions_profile (db : DB) (u : AuthUser)
    (hok : (createAccount db u).2 = true) :
    ∃ p, (createAccount db u).1.profiles = db.profiles ++ [p] ∧
      (createAccount db u).1.profiles.length = db.profiles.length + 1 ∧
      p.id = u.id ∧
      p.username = (match u.meta_username with
        | some n => n
        | none => splitPartOne u.email '@') := by
  unfold createAccount at hok ⊢
  split at hok
  case isTrue h =>
    rw [if_pos h]
    refine ⟨handle_new_user u, rfl, by simp, rfl, ?_⟩
    show u.meta_username.getD (splitPartOne u.email '@') = _
    cases u.meta_username <;> rfl
  case isFalse h =>
    simp at hok

/-- Witness for C5: creating the fixture account with no metadata
username yields exactly one new profile row with username derived from
the email bob at school.edu. -/
theorem account_creation_provisions_profile_witness :
    (createAccount dbEx uEx).2 = true ∧
    (∃ p, (createAccount dbEx uEx).1.profiles = dbEx.profiles ++ [p] ∧
      (createAccount dbEx uEx).1.profiles.length = dbEx.profiles.length + 1 ∧
      p.id = uEx.id ∧
      p.username = (match uEx.meta_username with
        | some n => n
        | none => splitPartOne uEx.email '@')) ∧
    splitPartOne uEx.email '@' = "bob" :=
  ⟨by decide, account_creation_provisions_profile dbEx uEx (by decide),
    by decide⟩

/-- Claim C6: deleting a student removes every attendance and grade row
referencing that student and nothing else; deleting a subject removes
every attendance and grade row referencing that subject and nothing
else. -/
theorem cascade_delete_spec (db : DB) (sid subj : String) :
    (∀ a ∈ (deleteStudent db sid).attendance, a.student_id ≠ sid) ∧
    (∀ g ∈ (deleteStudent db sid).grades, g.student_id ≠ sid) ∧
    (∀ a ∈ db.attendance, a.student_id ≠ sid →
      a ∈ (deleteStudent db sid).attendance) ∧
    (∀ g ∈ db.grades, g.student_id ≠ sid →
      g ∈ (deleteStudent db sid).grades) ∧
    (∀ a ∈ (deleteStudent db sid).attendance, a ∈ db.attendance) ∧
    (∀ g ∈ (deleteStudent db sid).grades, g ∈ db.grades) ∧
    (∀ s ∈ db.students, s.id ≠ sid → s ∈ (deleteStudent db sid).students) ∧
    (∀ s ∈ (deleteStudent db sid).students, s ∈ db.students) ∧
    (deleteStudent db sid).subjects = db.subjects ∧
    (deleteStudent db sid).profiles = db.profiles ∧
    (deleteStudent db sid).user_roles = db.user_roles ∧
    (deleteStudent db sid).auth_users = db.auth_users ∧
    (∀ a ∈ (deleteSubject db subj).attendance, a.subject_id ≠ subj) ∧
    (∀ g ∈ (deleteSubject db subj).grades, g.subject_id ≠ subj) ∧
    (∀ a ∈ db.attendance, a.subject_id ≠ subj →
      a ∈ (deleteSubject db subj).attendance) ∧
    (∀ g ∈ db.grades, g.subject_id ≠ subj →
      g ∈ (deleteSubject db subj).grades) ∧
    (∀ a ∈ (deleteSubject db subj).attendance, a ∈ db.attendance) ∧
    (∀ g ∈ (deleteSubject db subj).grades, g ∈ db.grades) ∧
    (∀ s ∈ db.subjects, s.id ≠ subj → s ∈ (deleteSubject db subj).subjects) ∧
    (∀ s ∈ (deleteSubject db subj).subjects, s ∈ db.subjects) ∧
    (deleteSubject db subj).students = db.students ∧
    (deleteSubject db subj).profiles = db.profiles ∧
    (deleteSubject db subj).user_roles = db.user_roles ∧
    (deleteSubject db subj).auth_users = db.auth_users := by
  have hsa : ∀ a, a ∈ (deleteStudent db sid).attendance ↔
      a ∈ db.attendance ∧ a.student_id ≠ sid := by
    intro a
    simp [deleteStudent, List.mem_filter]
  have hsg : ∀ g, g ∈ (deleteStudent db sid).grades ↔
      g ∈ db.grades ∧ g.student_id ≠ sid := by
    intro g
    simp [deleteStudent, List.mem_filter]
  have hja : ∀ a, a ∈ (deleteSubject db subj).attendance ↔
      a ∈ db.attendance ∧ a.subject_id ≠ subj := by
    intro a
    simp [deleteSubject, List.mem_filter]
  have hjg : ∀ g, g ∈ (deleteSubject db subj).grades ↔
      g ∈ db.grades ∧ g.subject_id ≠ subj := by
    intro g
    simp [deleteSubject, List.mem_filter]
  have hss : ∀ s, s ∈ (deleteStudent db sid).students ↔
      s ∈ db.students ∧ s.id ≠ sid := by
    intro s
    simp [deleteStudent, List.mem_filter]
  have hjj : ∀ s, s ∈ (deleteSubject db subj).subjects ↔
      s ∈ db.subjects ∧ s.id ≠ subj := by
    intro s
    simp [deleteSubject, List.mem_filter]
  exact ⟨fun a ha => ((hsa a).1 ha).2, fun g hg => ((hsg g).1 hg).2,
    fun a ha h => (hsa a).2 ⟨ha, h⟩, fun g hg h => (hsg g).2 ⟨hg, h⟩,
    fun a ha => ((hsa a).1 ha).1, fun g hg => ((hsg g).1 hg).1,
    fun s hs h => (hss s).2 ⟨hs, h⟩, fun s hs => ((hss s).1 hs).1,
    rfl, rfl, rfl, rfl,
    fun a ha => ((hja a).1 ha).2, fun g hg => ((hjg g).1 hg).2,
    fun a ha h => (hja a).2 ⟨ha, h⟩, fun g hg h => (hjg g).2 ⟨hg, h⟩,
    fun a ha => ((hja a).1 ha).1, fun g hg => ((hjg g).1 hg).1,
    fun s hs h => (hjj s).2 ⟨hs, h⟩, fun s hs => ((hjj s).1 hs).1,
    rfl, rfl, rfl, rfl⟩

/-- Claim C7: any authenticated caller may read every profile row; a
profile update is permitted exactly when the target row's id equals the
caller's id; an update aimed at another account's row changes nothing,
and rows not owned by the caller are never changed. -/
theorem profiles_policy_spec (db : DB) (uid target : String)
    (f : Profile → Profile) (row : Profile) :
    profilesReadPolicy uid row = true ∧
    (profilesUpdatePolicy uid row = true ↔ uid = row.id) ∧
    (uid ≠ target → guardedUpdateProfile db uid target f = db) ∧
    (∀ p ∈ db.profiles, p.id ≠ uid →
      p ∈ (guardedUpdateProfile db uid target f).profiles) := by
  refine ⟨rfl, by simp [profilesUpdatePolicy], ?_, ?_⟩
  · intro h
    unfold guardedUpdateProfile
    have hmap : db.profiles.map (fun p =>
        if p.id = target && profilesUpdatePolicy uid p then
          { f p with id := p.id }
        else p) = db.profiles := by
      have hcong : ∀ p ∈ db.profiles,
          (if p.id = target && profilesUpdatePolicy uid p then
            { f p with id := p.id } else p) = p := by
        intro p _
        by_cases h1 : p.id = target
        · have h2 : ¬(uid = p.id) := fun he => h (he.trans h1)
          simp [profilesUpdatePolicy, h1, h2, h]
        · simp [profilesUpdatePolicy, h1]
      rw [List.map_congr_left hcong]
      simp
    rw [hmap]
  · intro p hp hne
    unfold guardedUpdateProfile
    have hfix : (if p.id = target && profilesUpdatePolicy uid p then
        { f p with id := p.id } else p) = p := by
      have h2 : ¬(uid = p.id) := fun he => hne he.symm
      simp [profilesUpdatePolicy, h2]
    exact List.mem_map.2 ⟨p, hp, hfix⟩

/-- Witness for C7: the caller u1 passes the update policy on its own
profile row, a caller u2 does not, and an update u2 aims at the u1 row
leaves the fixture store unchanged. -/
theorem profiles_policy_spec_witness :
    profilesUpdatePolicy "u1" pEx = true ∧
    profilesUpdatePolicy "u2" pEx = false ∧
    guardedUpdateProfile dbEx "u2" "u1"
      (fun p => { p with username := "hack" }) = dbEx :=
  ⟨by decide, by decide,
    (profiles_policy_spec dbEx "u2" "u1"
      (fun p => { p with username := "hack" }) pEx).2.2.1 (by decide)⟩

/-- Claim C8 is false on the code: the Attendance page's save handler
mutates the attendance table but no fetch of the attendance table
follows the mutation in its success path. -/
theorem pages_refetch_counterexample :
    (Table.attendance, attendanceSaveTrace) ∈ pageMutationTraces ∧
    Effect.mutate Table.attendance ∈ attendanceSaveTrace ∧
    fetchFollowsMutations Table.attendance attendanceSaveTrace = false := by
  decide

/-- Claim C8 amended: the Students, Subjects and Grades pages follow
every successful mutation with a fresh fetch of their own table, while
the Attendance page's save issues its mutation with no subsequent fetch
of the attendance table at all. -/
theorem pages_refetch_amended :
    fetchFollowsMutations Table.students studentsCreateTrace = true ∧
    fetchFollowsMutations Table.students studentsUpdateTrace = true ∧
    fetchFollowsMutations Table.students studentsDeleteTrace = true ∧
    fetchFollowsMutations Table.subjects subjectsCreateTrace = true ∧
    fetchFollowsMutations Table.subjects subjectsUpdateTrace = true ∧
    fetchFollowsMutations Table.subjects subjectsDeleteTrace = true ∧
    fetchFollowsMutations Table.grades gradesSaveTrace = true ∧
    Effect.mutate Table.attendance ∈ attendanceSaveTrace ∧
    Effect.fetch Table.attendance ∉ attendanceSaveTrace := by
  decide

/-- Claim C9: a grade insert with an absent score is accepted — the range
checks constrain only present scores — and the stored average of the new
row is null rather than a number. -/
theorem null_score_accepted (db : DB) (g : GradeInsert)
    (hnull : g.partial_score = none ∨ g.exam_score = none)
    (hc1 : scoreCheck g.partial_score = true)
    (hc2 : scoreCheck g.exam_score = true)
    (hstu : ∃ s ∈ db.students, s.id = g.student_id)
    (hsub : ∃ s ∈ db.subjects, s.id = g.subject_id)
    (hid : ∀ r ∈ db.grades, r.id ≠ g.id)
    (hdup : ∀ r ∈ db.grades,
      ¬(r.student_id = g.student_id ∧ r.subject_id = g.subject_id)) :
    insertGrade db g = ({ db with grades := db.grades ++ [g.row] }, true) ∧
    g.row.average = none := by
  constructor
  · apply insertGrade_of_ok
    simp only [insertGradeOk, Bool.and_eq_true, Bool.not_eq_true',
      List.any_eq_false, List.any_eq_true, decide_eq_true_eq,
      decide_eq_false_iff_not]
    exact ⟨⟨⟨⟨⟨hc1, hc2⟩, hstu⟩, hsub⟩, hid⟩, hdup⟩
  · rcases hnull with h | h
    · show gradeAverage g.partial_score g.exam_score = none
      rw [h]
      cases g.exam_score <;> rfl
    · show gradeAverage g.partial_score g.exam_score = none
      rw [h]
      cases g.partial_score <;> rfl

/-- Witness for C9: the fixture insert with an absent partial score is
accepted and stores a null average. -/
theorem null_score_accepted_witness :
    insertGrade dbEx gNull =
      ({ dbEx with grades := dbEx.grades ++ [gNull.row] }, true) ∧
    gNull.row.average = none :=
  null_score_accepted dbEx gNull (Or.inl rfl) (by decide) (by decide)
    (by decide) (by decide) (by decide) (by decide)

theorem countP_student_id_eq_one {l : List Student}
    (hnd : (l.map Student.id).Nodup) {s : Student} (hs : s ∈ l) :
    l.countP (fun x => decide (x.id = s.id)) = 1 := by
  induction l with
  | nil => simp at hs
  | cons a t ih =>
    simp only [List.map_cons, List.nodup_cons] at hnd
    rcases List.mem_cons.1 hs with h | h
    · subst h
      rw [List.countP_cons]
      have hz : t.countP (fun x => decide (x.id = s.id)) = 0 := by
        apply List.countP_eq_zero.2
        intro x hx he
        have hxe : x.id = s.id := by simpa using he
        apply hnd.1
        rw [← hxe]
        exact List.mem_map_of_mem Student.id hx
      simp [hz]
    · have hne : a.id ≠ s.id := by
        intro he
        apply hnd.1
        rw [he]
        exact List.mem_map_of_mem Student.id h
      rw [List.countP_cons]
      simp [hne, ih hnd.2 h]

/-- Claim C10: the record set the Attendance page saves holds one record
for every student currently listed — exactly one (date, student, subject)
record per listed student when the listed ids are distinct — with present
defaulting to false for every student not explicitly marked, and no
record for anyone else. -/
theorem attendance_save_records_spec (students : List Student)
    (d subj : String) (marks : List (String × Bool))
    (hnd : (students.map Student.id).Nodup) :
    (attendanceSaveRecords students d subj marks).length = students.length ∧
    (∀ s ∈ students,
      ({ date := d, student_id := s.id, subject_id := subj,
         present := (marks.lookup s.id).getD false } : AttendanceUpsertRecord)
        ∈ attendanceSaveRecords students d subj marks) ∧
    (∀ s ∈ students, (attendanceSaveRecords students d subj marks).countP
        (fun r => decide (r.student_id = s.id)) = 1) ∧
    (∀ s ∈ students, marks.lookup s.id = none →
      ∃ r ∈ attendanceSaveRecords students d subj marks,
        r.student_id = s.id ∧ r.date = d ∧ r.subject_id = subj ∧
        r.present = false) ∧
    (∀ r ∈ attendanceSaveRecords students d subj marks,
      r.date = d ∧ r.subject_id = subj ∧
        ∃ s ∈ students, r.student_id = s.id) := by
  refine ⟨by simp [attendanceSaveRecords], ?_, ?_, ?_, ?_⟩
  · intro s hs
    exact List.mem_map.2 ⟨s, hs, rfl⟩
  · intro s hs
    unfold attendanceSaveRecords
    rw [List.countP_map]
    have hfun : ((fun r : AttendanceUpsertRecord =>
        decide (r.student_id = s.id)) ∘
        (fun s2 : Student =>
          ({ date := d, student_id := s2.id, subject_id := subj,
             present := (marks.lookup s2.id).getD false } :
            AttendanceUpsertRecord)))
        = fun x : Student => decide (x.id = s.id) := rfl
    rw [hfun]
    exact countP_student_id_eq_one hnd hs
  · intro s hs hm
    refine ⟨_, List.mem_map.2 ⟨s, hs, rfl⟩, rfl, rfl, rfl, ?_⟩
    simp [hm]
  · intro r hr
    obtain ⟨s, hs, hsr⟩ := List.mem_map.1 hr
    subst hsr
    exact ⟨rfl, rfl, s, hs, rfl⟩

/-- Witness for C10: saving the two fixture students with only the first
marked present yields two records, exactly one for the second student,
and that record carries present false. -/
theorem attendance_save_records_witness :
    ([stEx, stEx2].map Student.id).Nodup ∧
    (attendanceSaveRecords [stEx, stEx2] "2024-01-03" "j1"
      [("s1", true)]).length = [stEx, stEx2].length ∧
    (attendanceSaveRecords [stEx, stEx2] "2024-01-03" "j1"
      [("s1", true)]).countP (fun r => decide (r.student_id = stEx2.id)) = 1 ∧
    (∃ r ∈ attendanceSaveRecords [stEx, stEx2] "2024-01-03" "j1"
      [("s1", true)], r.student_id = stEx2.id ∧ r.date = "2024-01-03" ∧
      r.subject_id = "j1" ∧ r.present = false) := by
  have h := attendance_save_records_spec [stEx, stEx2] "2024-01-03" "j1"
    [("s1", true)] (by decide)
  exact ⟨by decide, h.1, h.2.2.1 stEx2 (by simp),
    h.2.2.2.1 stEx2 (by simp) (by decide)⟩
